/-
Verification of the Sentinel scan-simulation dashboard.

The development shallowly embeds the state-manipulating logic of the two
App variants (the TypeScript React components) and of the geminiService
module as pure Lean functions.  React state updates become explicit state
passing; the nondeterministic inputs of the code (Math.random draws,
wall-clock timestamps, the generative-API responses) are supplied by an
explicit environment.  JavaScript closure semantics are modelled
faithfully: the value of `isScanning` read inside the scan loop is the
value captured when the callback was created, passed in as the
parameter `cap`.
-/
import Mathlib

namespace Sentinel

/-- LogLevel enum from types.ts. -/
inductive LogLevel where
  | INFO
  | WARN
  | ERROR
  | SUCCESS
  | SYSTEM
deriving DecidableEq

/-- The owning-module tag of a log entry ('CRAWLER' | 'DAST' | 'FORM_BOT' | 'CORE'). -/
inductive Module where
  | CRAWLER
  | DAST
  | FORM_BOT
  | CORE
deriving DecidableEq

/-- LogEntry interface from types.ts. -/
structure LogEntry where
  id : String
  timestamp : String
  level : LogLevel
  message : String
  module : Module
deriving DecidableEq

/-- Vulnerability severity ('CRITICAL' | 'HIGH' | 'MEDIUM' | 'LOW'). -/
inductive Severity where
  | CRITICAL
  | HIGH
  | MEDIUM
  | LOW
deriving DecidableEq

/-- Vulnerability interface from types.ts. -/
structure Vulnerability where
  id : String
  type : String
  severity : Severity
  description : String
  location : String
  payload_used : Option String
deriving DecidableEq

/-- ScanStats interface from types.ts. -/
structure ScanStats where
  pagesCrawled : Nat
  formsDetected : Nat
  vulnsFound : Nat
  durationSeconds : Nat
deriving DecidableEq

/-- CrawlNode status ('pending' | 'visited' | 'vuln'). -/
inductive NodeStatus where
  | pending
  | visited
  | vuln
deriving DecidableEq

/-- CrawlNode interface from types.ts. -/
structure CrawlNode where
  id : String
  url : String
  status : NodeStatus
  depth : Nat
  parent : Option String
deriving DecidableEq

/-- One record of the 'logs' array returned by analyzeTargetForSimulation. -/
structure SimLog where
  level : LogLevel
  message : String
  module : Module
deriving DecidableEq

/-- One record of the 'vulnerabilities' array (Omit of Vulnerability without 'id'). -/
structure VulnData where
  type : String
  severity : Severity
  description : String
  location : String
  payload_used : Option String
deriving DecidableEq

/-- The payload returned by analyzeTargetForSimulation. -/
structure SimData where
  logs : List SimLog
  vulnerabilities : List VulnData
deriving DecidableEq

/-- Outcome of one generateContent request: the call either throws or
replies with an optional text body (response.text may be undefined). -/
inductive ApiOutcome where
  | throw
  | reply (text : Option String)
deriving DecidableEq

/-- The empty result returned when the response has no usable text. -/
def emptySim : SimData := { logs := [], vulnerabilities := [] }

/-- The fixed fallback payload built in the catch branch of
analyzeTargetForSimulation (geminiService lines 93-104). -/
def fallbackSim (targetUrl : String) : SimData :=
  { logs :=
      [ { level := .ERROR, message := "Gemini Uplink Failed. Reverting to local heuristics.", module := .CORE },
        { level := .WARN, message := "Connection unstable. Retrying handshake...", module := .CRAWLER },
        { level := .INFO, message := "Falling back to offline simulation database...", module := .CORE },
        { level := .WARN, message := "Simulating scan for " ++ targetUrl, module := .CORE },
        { level := .INFO, message := "GET /login [200 OK] - 45ms", module := .CRAWLER },
        { level := .INFO, message := "Found input[name=\x27username\x27]", module := .FORM_BOT },
        { level := .INFO, message := "Testing payload: \x27 OR 1=1 --", module := .DAST } ],
    vulnerabilities := [] }

/-- The sanitisation applied to the response text before JSON.parse:
strip Markdown code fences and trim whitespace. -/
def cleanText (s : String) : String :=
  ((s.replace "```json" "").replace "```" "").trim

/-- Shallow embedding of analyzeTargetForSimulation (geminiService).
`parse` stands for JSON.parse composed with the TypeScript-level reading
of the parsed object; it returns none when JSON.parse would throw.  The
API is a trace of outcomes, one per generateContent request; the function
consumes the head of the trace and returns the unconsumed remainder,
mirroring that the body issues exactly one request.  Every failure path
(the request throwing, or JSON.parse throwing) is caught and replaced by
the fallback payload, so the function is total: no exception escapes. -/
def analyzeTargetForSimulation (parse : String → Option SimData) (targetUrl : String)
    (api : List ApiOutcome) : SimData × List ApiOutcome :=
  match api with
  | [] => (fallbackSim targetUrl, [])
  | o :: rest =>
    match o with
    | .throw => (fallbackSim targetUrl, rest)
    | .reply none => (emptySim, rest)
    | .reply (some t) =>
      if t = "" then (emptySim, rest)
      else
        match parse (cleanText t) with
        | some d => (d, rest)
        | none => (fallbackSim targetUrl, rest)

/-- The nondeterministic inputs of one App session: per-request SimData
results of analyzeTargetForSimulation (which, as proved below, never
throws), the Math.random id supply, the wall-clock timestamp supply, the
random path / query draws of variant A, and variant B's random PID. -/
structure Env where
  sim : Nat → SimData
  ids : Nat → String
  times : Nat → String
  pathIdx : Nat → Nat
  queryId : Nat → Nat
  pid : Nat

/-- The component state of the first App variant (the TOPOLOGY one). -/
structure AppStateA where
  logs : List LogEntry
  vulnerabilities : List Vulnerability
  crawlNodes : List CrawlNode
  isScanning : Bool
  stats : ScanStats
deriving DecidableEq

/-- The component state of the second App variant (no crawl map). -/
structure AppStateB where
  logs : List LogEntry
  vulnerabilities : List Vulnerability
  isScanning : Bool
  stats : ScanStats
deriving DecidableEq

/-- The all-zero ScanStats value used by useState and by the reset. -/
def zeroStats : ScanStats :=
  { pagesCrawled := 0, formsDetected := 0, vulnsFound := 0, durationSeconds := 0 }

/-- The LogEntry built by addLog from a level, message and module,
drawing id and timestamp from the supply at index k. -/
def mkLogEntry (env : Env) (k : Nat) (level : LogLevel) (message : String)
    (module : Module) : LogEntry :=
  { id := env.ids k, timestamp := env.times k, level := level,
    message := message, module := module }

/-- Variant A log append: prev.slice(-49) keeps the last 49 entries
before the new one is appended. -/
def appendCapped (e : LogEntry) (logs : List LogEntry) : List LogEntry :=
  logs.drop (logs.length - 49) ++ [e]

/-- addLog of the first App variant (capped to the trailing window).
State is threaded together with the supply counter. -/
def addLogA (env : Env) (level : LogLevel) (message : String) (module : Module)
    (sk : AppStateA × Nat) : AppStateA × Nat :=
  ({ sk.1 with logs := appendCapped (mkLogEntry env sk.2 level message module) sk.1.logs },
   sk.2 + 1)

/-- addLog of the second App variant (plain append, no cap). -/
def addLogB (env : Env) (level : LogLevel) (message : String) (module : Module)
    (sk : AppStateB × Nat) : AppStateB × Nat :=
  ({ sk.1 with logs := sk.1.logs ++ [mkLogEntry env sk.2 level message module] },
   sk.2 + 1)

/-- The Vulnerability stored on acceptance: the fabricated record plus a
freshly drawn id, as in the spread with id Math.random().toString(36). -/
def mkVuln (env : Env) (k : Nat) (v : VulnData) : Vulnerability :=
  { id := env.ids k, type := v.type, severity := v.severity,
    description := v.description, location := v.location,
    payload_used := v.payload_used }

/-- setStats incrementing vulnsFound. -/
def incVulnsFound (s : ScanStats) : ScanStats := { s with vulnsFound := s.vulnsFound + 1 }

/-- The setVulnerabilities updater of variant A for one fabricated
vulnerability: if an entry of the same type exists the list is returned
unchanged, otherwise the WARN alert is logged, vulnsFound is incremented
and the record is appended with a fresh id. -/
def processVulnA (env : Env) (v : VulnData) (sk : AppStateA × Nat) : AppStateA × Nat :=
  if sk.1.vulnerabilities.any (fun p => p.type == v.type) then sk
  else
    let sk1 := addLogA env .WARN ("ALERT: Found " ++ v.type ++ " at " ++ v.location) .DAST sk
    ({ sk1.1 with
        stats := incVulnsFound sk1.1.stats,
        vulnerabilities := sk1.1.vulnerabilities ++ [mkVuln env sk1.2 v] }, sk1.2 + 1)

/-- The setVulnerabilities updater of variant B (same logic, different
alert message). -/
def processVulnB (env : Env) (v : VulnData) (sk : AppStateB × Nat) : AppStateB × Nat :=
  if sk.1.vulnerabilities.any (fun p => p.type == v.type) then sk
  else
    let sk1 := addLogB env .WARN ("VULNERABILITY DETECTED: " ++ v.type) .DAST sk
    ({ sk1.1 with
        stats := incVulnsFound sk1.1.stats,
        vulnerabilities := sk1.1.vulnerabilities ++ [mkVuln env sk1.2 v] }, sk1.2 + 1)

/-- Processing of one fabricated log record of a batch in variant A:
the entry is added, and pagesCrawled or formsDetected is incremented
when the module is CRAWLER or FORM_BOT. -/
def processSimLogA (env : Env) (l : SimLog) (sk : AppStateA × Nat) : AppStateA × Nat :=
  let sk1 := addLogA env l.level l.message l.module sk
  let s2 := if l.module == .CRAWLER then
      { sk1.1 with stats := { sk1.1.stats with pagesCrawled := sk1.1.stats.pagesCrawled + 1 } }
    else sk1.1
  let s3 := if l.module == .FORM_BOT then
      { s2 with stats := { s2.stats with formsDetected := s2.stats.formsDetected + 1 } }
    else s2
  (s3, sk1.2)

/-- Processing of one fabricated log record of a batch in variant B. -/
def processSimLogB (env : Env) (l : SimLog) (sk : AppStateB × Nat) : AppStateB × Nat :=
  let sk1 := addLogB env l.level l.message l.module sk
  let s2 := if l.module == .CRAWLER then
      { sk1.1 with stats := { sk1.1.stats with pagesCrawled := sk1.1.stats.pagesCrawled + 1 } }
    else sk1.1
  let s3 := if l.module == .FORM_BOT then
      { s2 with stats := { s2.stats with formsDetected := s2.stats.formsDetected + 1 } }
    else s2
  (s3, sk1.2)

/-- The candidate path pool of variant A. -/
def newPaths : List String :=
  ["/api/v1", "/login", "/dashboard", "/settings", "/search", "/assets/js", "/.env", "/config.php"]

/-- The randomly chosen simulated URL of tick i in variant A. -/
def tickPathA (env : Env) (i : Nat) : String :=
  newPaths.getD (env.pathIdx i % newPaths.length) "" ++ "?id=" ++ toString (env.queryId i % 100)

/-- The CrawlNode appended on tick i of variant A: fresh id, random
path, depth i+1, no parent, status vuln exactly when the batch carried
at least one vulnerability. -/
def mkTickNodeA (env : Env) (k i : Nat) (d : SimData) : CrawlNode :=
  { id := env.ids k, url := tickPathA env i,
    status := if d.vulnerabilities.length > 0 then .vuln else .visited,
    depth := i + 1, parent := none }

/-- The root CrawlNode seeded before the loop of variant A. -/
def rootNode : CrawlNode :=
  { id := "root", url := "/", status := .visited, depth := 0, parent := none }

/-- One loop iteration of variant A's startScan: the working-indicator
log, one analyzeTargetForSimulation request, the new topology node, then
the batch merge.  The batch's vulnerabilities are merged synchronously
while its log records fire on staggered timeouts, so the vulnerability
fold precedes the log fold. -/
def tickA (env : Env) (i : Nat) (sk : AppStateA × Nat) : AppStateA × Nat :=
  let sk1 := addLogA env .INFO ("Deep-scanning path segment " ++ toString (i + 1) ++ "...") .CRAWLER sk
  let d := env.sim i
  let sk2 := ({ sk1.1 with crawlNodes := sk1.1.crawlNodes ++ [mkTickNodeA env sk1.2 i d] },
              sk1.2 + 1)
  let sk3 := d.vulnerabilities.foldl (fun a v => processVulnA env v a) sk2
  d.logs.foldl (fun a l => processSimLogA env l a) sk3

/-- One loop iteration of variant B's startScan: one request and the
batch merge (again vulnerabilities before the timed-out log records). -/
def tickB (env : Env) (i : Nat) (sk : AppStateB × Nat) : AppStateB × Nat :=
  let d := env.sim i
  let sk1 := d.vulnerabilities.foldl (fun a v => processVulnB env v a) sk
  d.logs.foldl (fun a l => processSimLogB env l a) sk1

/-- The for-loop of variant A.  `cap` is the closure-captured value of
isScanning; the body starts with `if (!isScanning) break`.  The third
component counts the iterations whose body actually ran. -/
def scanLoopA (env : Env) (cap : Bool) : Nat → Nat → AppStateA × Nat → (AppStateA × Nat) × Nat
  | 0, _, sk => (sk, 0)
  | fuel + 1, i, sk =>
    if cap then
      let r := scanLoopA env cap fuel (i + 1) (tickA env i sk)
      (r.1, r.2 + 1)
    else (sk, 0)

/-- The for-loop of variant B; its break guard is
`if (!isScanning && i > 0) break`. -/
def scanLoopB (env : Env) (cap : Bool) : Nat → Nat → AppStateB × Nat → (AppStateB × Nat) × Nat
  | 0, _, sk => (sk, 0)
  | fuel + 1, i, sk =>
    if cap = false ∧ 0 < i then (sk, 0)
    else
      let r := scanLoopB env cap fuel (i + 1) (tickB env i sk)
      (r.1, r.2 + 1)

/-- The state set at session start in variant A: isScanning true, all
lists emptied, stats zeroed. -/
def resetStateA : AppStateA :=
  { logs := [], vulnerabilities := [], crawlNodes := [], isScanning := true, stats := zeroStats }

/-- The state set at session start in variant B. -/
def resetStateB : AppStateB :=
  { logs := [], vulnerabilities := [], isScanning := true, stats := zeroStats }

/-- startScan of variant A.  Guards: empty targetUrl is a silent no-op;
missing API key only logs an ERROR.  Past the guards the session state
is reset, two banner entries are logged, the root node is seeded, the
loop runs with bound 5, the SUCCESS entry is logged and the finally
clause clears isScanning.  The second component is the number of loop
iterations that ran. -/
def startScanA (env : Env) (targetUrl : String) (apiKeyAvailable cap : Bool)
    (s : AppStateA) : AppStateA × Nat :=
  if targetUrl = "" then (s, 0)
  else if apiKeyAvailable = false then
    ((addLogA env .ERROR "API_KEY not found in environment." .CORE (s, 0)).1, 0)
  else
    let sk1 := addLogA env .SYSTEM "Initializing Sentinel Agent v2.4" .CORE (resetStateA, 0)
    let sk2 := addLogA env .INFO ("Target acquired: " ++ targetUrl) .CORE sk1
    let sk3 := ({ sk2.1 with crawlNodes := [rootNode] }, sk2.2)
    let r := scanLoopA env cap 5 0 sk3
    let sk4 := addLogA env .SUCCESS "Mission Parameters Met. Finalizing data..." .CORE r.1
    ({ sk4.1 with isScanning := false }, r.2)

/-- startScan of variant B.  An empty targetUrl logs one ERROR entry and
returns; a missing API key likewise.  Past the guards the state is
reset, four banner entries are logged (the last interpolating the random
PID), the loop runs with bound 4, the completion entry is logged and the
finally clause clears isScanning. -/
def startScanB (env : Env) (targetUrl : String) (apiKeyAvailable cap : Bool)
    (s : AppStateB) : AppStateB × Nat :=
  if targetUrl = "" then
    ((addLogB env .ERROR "Target URL is required." .CORE (s, 0)).1, 0)
  else if apiKeyAvailable = false then
    ((addLogB env .ERROR "API_KEY not found in environment." .CORE (s, 0)).1, 0)
  else
    let sk1 := addLogB env .SYSTEM "Initializing Sentinel Agent v2.4" .CORE (resetStateB, 0)
    let sk2 := addLogB env .INFO ("Target acquired: " ++ targetUrl) .CORE sk1
    let sk3 := addLogB env .INFO "Loading stealth modules (puppeteer-extra-plugin-stealth)..." .CRAWLER sk2
    let sk4 := addLogB env .SUCCESS
      ("Headless Browser Launched (PID: " ++ toString (env.pid % 9000 + 1000) ++ ")") .CRAWLER sk3
    let r := scanLoopB env cap 4 0 sk4
    let sk5 := addLogB env .SUCCESS "Scan Complete. Generating Report..." .CORE r.1
    ({ sk5.1 with isScanning := false }, r.2)

/-- The per-second stats timer of variant A: durationSeconds + 1. -/
def durationTickA (s : AppStateA) : AppStateA :=
  { s with stats := { s.stats with durationSeconds := s.stats.durationSeconds + 1 } }

/-- The per-second stats timer of variant B. -/
def durationTickB (s : AppStateB) : AppStateB :=
  { s with stats := { s.stats with durationSeconds := s.stats.durationSeconds + 1 } }

/-! Concrete fixtures used to instantiate the quantified theorems. -/

/-- A concrete environment for evaluating the embedding. -/
def envTest : Env :=
  { sim := fun _ => emptySim, ids := fun n => toString n, times := fun _ => "12:00:00",
    pathIdx := fun _ => 0, queryId := fun _ => 0, pid := 0 }

/-- The initial component state of variant A (useState initial values). -/
def initA : AppStateA :=
  { logs := [], vulnerabilities := [], crawlNodes := [], isScanning := false, stats := zeroStats }

/-- The initial component state of variant B. -/
def initB : AppStateB :=
  { logs := [], vulnerabilities := [], isScanning := false, stats := zeroStats }

/-- A concrete fabricated vulnerability record. -/
def vTest : VulnData :=
  { type := "SQLi", severity := .CRITICAL, description := "blind injection",
    location := "/login", payload_used := some "\x27 OR 1=1 --" }

/-- Variant A state already holding a stored vulnerability of vTest's type. -/
def stateWithVulnA : AppStateA :=
  { initA with vulnerabilities := [mkVuln envTest 7 vTest],
               stats := { zeroStats with vulnsFound := 1 } }

/-- Variant B state already holding a stored vulnerability of vTest's type. -/
def stateWithVulnB : AppStateB :=
  { initB with vulnerabilities := [mkVuln envTest 7 vTest],
               stats := { zeroStats with vulnsFound := 1 } }

/-! Invariants. -/

/-- No two entries of the list share a type. -/
def TypesDistinct (l : List Vulnerability) : Prop :=
  l.Pairwise (fun a b => a.type ≠ b.type)

/-- vulnsFound agrees with the length of the stored vulnerability list. -/
def VulnCountInvA (s : AppStateA) : Prop := s.stats.vulnsFound = s.vulnerabilities.length

/-- vulnsFound agrees with the length of the stored vulnerability list. -/
def VulnCountInvB (s : AppStateB) : Prop := s.stats.vulnsFound = s.vulnerabilities.length

/-- Componentwise order on ScanStats. -/
def StatsLe (a b : ScanStats) : Prop :=
  a.pagesCrawled ≤ b.pagesCrawled ∧ a.formsDetected ≤ b.formsDetected ∧
    a.vulnsFound ≤ b.vulnsFound ∧ a.durationSeconds ≤ b.durationSeconds

/-- Every node of the list is flat: no parent edge and never pending. -/
def NodesFlat (l : List CrawlNode) : Prop :=
  ∀ n ∈ l, n.parent = none ∧ n.status ≠ NodeStatus.pending

/-! Generic helper lemmas. -/

theorem statsLe_refl (a : ScanStats) : StatsLe a a :=
  ⟨Nat.le_refl _, Nat.le_refl _, Nat.le_refl _, Nat.le_refl _⟩

theorem statsLe_trans {a b c : ScanStats} (h1 : StatsLe a b) (h2 : StatsLe b c) : StatsLe a c :=
  ⟨Nat.le_trans h1.1 h2.1, Nat.le_trans h1.2.1 h2.2.1,
   Nat.le_trans h1.2.2.1 h2.2.2.1, Nat.le_trans h1.2.2.2 h2.2.2.2⟩

/-- A property preserved by each step of a fold is preserved by the fold. -/
theorem foldl_preserve {α σ : Type} (f : σ → α → σ) (P : σ → Prop)
    (h : ∀ s a, P s → P (f s a)) : ∀ (l : List α) (s : σ), P s → P (l.foldl f s) := by
  intro l
  induction l with
  | nil => intro s hs; exact hs
  | cons a t ih => intro s hs; exact ih (f s a) (h s a hs)

/-- A fold whose steps only grow the stats grows the stats. -/
theorem foldl_statsLe {α σ : Type} (stats : σ → ScanStats) (f : σ → α → σ)
    (h : ∀ s a, StatsLe (stats s) (stats (f s a))) :
    ∀ (l : List α) (s : σ), StatsLe (stats s) (stats (l.foldl f s)) := by
  intro l
  induction l with
  | nil => intro s; exact statsLe_refl _
  | cons a t ih => intro s; exact statsLe_trans (h s a) (ih (f s a))

/-! Component lemmas about the single-step operations. -/

@[simp] theorem addLogA_vulnerabilities (env lvl msg md sk) :
    (addLogA env lvl msg md sk).1.vulnerabilities = sk.1.vulnerabilities := rfl

@[simp] theorem addLogA_crawlNodes (env lvl msg md sk) :
    (addLogA env lvl msg md sk).1.crawlNodes = sk.1.crawlNodes := rfl

@[simp] theorem addLogA_stats (env lvl msg md sk) :
    (addLogA env lvl msg md sk).1.stats = sk.1.stats := rfl

@[simp] theorem addLogB_vulnerabilities (env lvl msg md sk) :
    (addLogB env lvl msg md sk).1.vulnerabilities = sk.1.vulnerabilities := rfl

@[simp] theorem addLogB_stats (env lvl msg md sk) :
    (addLogB env lvl msg md sk).1.stats = sk.1.stats := rfl

theorem processSimLogA_vulnerabilities (env l sk) :
    (processSimLogA env l sk).1.vulnerabilities = sk.1.vulnerabilities := by
  rcases l with ⟨lvl, msg, md⟩
  cases md <;> simp [processSimLogA, addLogA]

theorem processSimLogA_crawlNodes (env l sk) :
    (processSimLogA env l sk).1.crawlNodes = sk.1.crawlNodes := by
  rcases l with ⟨lvl, msg, md⟩
  cases md <;> simp [processSimLogA, addLogA]

theorem processSimLogA_stats (env l sk) :
    (processSimLogA env l sk).1.stats =
      { sk.1.stats with
          pagesCrawled := sk.1.stats.pagesCrawled + (if l.module = .CRAWLER then 1 else 0),
          formsDetected := sk.1.stats.formsDetected + (if l.module = .FORM_BOT then 1 else 0) } := by
  rcases l with ⟨lvl, msg, md⟩
  cases md <;> simp [processSimLogA, addLogA]

theorem processSimLogB_vulnerabilities (env l sk) :
    (processSimLogB env l sk).1.vulnerabilities = sk.1.vulnerabilities := by
  rcases l with ⟨lvl, msg, md⟩
  cases md <;> simp [processSimLogB, addLogB]

theorem processSimLogB_stats (env l sk) :
    (processSimLogB env l sk).1.stats =
      { sk.1.stats with
          pagesCrawled := sk.1.stats.pagesCrawled + (if l.module = .CRAWLER then 1 else 0),
          formsDetected := sk.1.stats.formsDetected + (if l.module = .FORM_BOT then 1 else 0) } := by
  rcases l with ⟨lvl, msg, md⟩
  cases md <;> simp [processSimLogB, addLogB]

/-- The dedup test of the setVulnerabilities updater, as a proposition. -/
theorem vuln_any_iff (l : List Vulnerability) (v : VulnData) :
    l.any (fun p => p.type == v.type) = true ↔ ∃ p ∈ l, p.type = v.type := by
  simp [List.any_eq_true]

theorem processVulnA_found (env v sk)
    (h : ∃ p ∈ sk.1.vulnerabilities, p.type = v.type) :
    processVulnA env v sk = sk := by
  rw [processVulnA, if_pos ((vuln_any_iff _ _).mpr h)]

theorem processVulnA_not_found (env v sk)
    (h : ¬ ∃ p ∈ sk.1.vulnerabilities, p.type = v.type) :
    processVulnA env v sk =
      ({ sk.1 with
          logs := appendCapped
            (mkLogEntry env sk.2 .WARN ("ALERT: Found " ++ v.type ++ " at " ++ v.location) .DAST)
            sk.1.logs,
          stats := incVulnsFound sk.1.stats,
          vulnerabilities := sk.1.vulnerabilities ++ [mkVuln env (sk.2 + 1) v] }, sk.2 + 2) := by
  rw [processVulnA,
    if_neg (fun hc => h ((vuln_any_iff _ _).mp hc))]
  rfl

theorem processVulnB_found (env v sk)
    (h : ∃ p ∈ sk.1.vulnerabilities, p.type = v.type) :
    processVulnB env v sk = sk := by
  rw [processVulnB, if_pos ((vuln_any_iff _ _).mpr h)]

theorem processVulnB_not_found (env v sk)
    (h : ¬ ∃ p ∈ sk.1.vulnerabilities, p.type = v.type) :
    processVulnB env v sk =
      ({ sk.1 with
          logs := sk.1.logs ++
            [mkLogEntry env sk.2 .WARN ("VULNERABILITY DETECTED: " ++ v.type) .DAST],
          stats := incVulnsFound sk.1.stats,
          vulnerabilities := sk.1.vulnerabilities ++ [mkVuln env (sk.2 + 1) v] }, sk.2 + 2) := by
  rw [processVulnB,
    if_neg (fun hc => h ((vuln_any_iff _ _).mp hc))]
  rfl

theorem processVulnA_crawlNodes (env v sk) :
    (processVulnA env v sk).1.crawlNodes = sk.1.crawlNodes := by
  by_cases h : ∃ p ∈ sk.1.vulnerabilities, p.type = v.type
  · rw [processVulnA_found env v sk h]
  · rw [processVulnA_not_found env v sk h]

theorem processVulnA_typesDistinct (env v sk)
    (h : TypesDistinct sk.1.vulnerabilities) :
    TypesDistinct (processVulnA env v sk).1.vulnerabilities := by
  by_cases hc : ∃ p ∈ sk.1.vulnerabilities, p.type = v.type
  · rw [processVulnA_found env v sk hc]; exact h
  · rw [processVulnA_not_found env v sk hc]
    refine List.pairwise_append.mpr ⟨h, List.pairwise_singleton _ _, ?_⟩
    intro a ha b hb
    simp only [List.mem_singleton] at hb
    subst hb
    exact fun he => hc ⟨a, ha, he⟩

theorem processVulnB_typesDistinct (env v sk)
    (h : TypesDistinct sk.1.vulnerabilities) :
    TypesDistinct (processVulnB env v sk).1.vulnerabilities := by
  by_cases hc : ∃ p ∈ sk.1.vulnerabilities, p.type = v.type
  · rw [processVulnB_found env v sk hc]; exact h
  · rw [processVulnB_not_found env v sk hc]
    refine List.pairwise_append.mpr ⟨h, List.pairwise_singleton _ _, ?_⟩
    intro a ha b hb
    simp only [List.mem_singleton] at hb
    subst hb
    exact fun he => hc ⟨a, ha, he⟩

theorem processVulnA_countInv (env v sk) (h : VulnCountInvA sk.1) :
    VulnCountInvA (processVulnA env v sk).1 := by
  by_cases hc : ∃ p ∈ sk.1.vulnerabilities, p.type = v.type
  · rw [processVulnA_found env v sk hc]; exact h
  · rw [processVulnA_not_found env v sk hc]
    simp [VulnCountInvA, incVulnsFound] at h ⊢
    omega

theorem processVulnB_countInv (env v sk) (h : VulnCountInvB sk.1) :
    VulnCountInvB (processVulnB env v sk).1 := by
  by_cases hc : ∃ p ∈ sk.1.vulnerabilities, p.type = v.type
  · rw [processVulnB_found env v sk hc]; exact h
  · rw [processVulnB_not_found env v sk hc]
    simp [VulnCountInvB, incVulnsFound] at h ⊢
    omega

theorem processSimLogA_countInv (env l sk) (h : VulnCountInvA sk.1) :
    VulnCountInvA (processSimLogA env l sk).1 := by
  simp [VulnCountInvA, processSimLogA_vulnerabilities, processSimLogA_stats] at h ⊢
  exact h

theorem processSimLogB_countInv (env l sk) (h : VulnCountInvB sk.1) :
    VulnCountInvB (processSimLogB env l sk).1 := by
  simp [VulnCountInvB, processSimLogB_vulnerabilities, processSimLogB_stats] at h ⊢
  exact h

theorem addLogA_statsLe (env lvl msg md sk) :
    StatsLe sk.1.stats (addLogA env lvl msg md sk).1.stats := by
  rw [addLogA_stats]; exact statsLe_refl _

theorem addLogB_statsLe (env lvl msg md sk) :
    StatsLe sk.1.stats (addLogB env lvl msg md sk).1.stats := by
  rw [addLogB_stats]; exact statsLe_refl _

theorem processSimLogA_statsLe (env l sk) :
    StatsLe sk.1.stats (processSimLogA env l sk).1.stats := by
  rw [processSimLogA_stats]
  exact ⟨Nat.le_add_right _ _, Nat.le_add_right _ _, Nat.le_refl _, Nat.le_refl _⟩

theorem processSimLogB_statsLe (env l sk) :
    StatsLe sk.1.stats (processSimLogB env l sk).1.stats := by
  rw [processSimLogB_stats]
  exact ⟨Nat.le_add_right _ _, Nat.le_add_right _ _, Nat.le_refl _, Nat.le_refl _⟩

theorem processVulnA_statsLe (env v sk) :
    StatsLe sk.1.stats (processVulnA env v sk).1.stats := by
  by_cases hc : ∃ p ∈ sk.1.vulnerabilities, p.type = v.type
  · rw [processVulnA_found env v sk hc]; exact statsLe_refl _
  · rw [processVulnA_not_found env v sk hc]
    exact ⟨Nat.le_refl _, Nat.le_refl _, Nat.le_add_right _ _, Nat.le_refl _⟩

theorem processVulnB_statsLe (env v sk) :
    StatsLe sk.1.stats (processVulnB env v sk).1.stats := by
  by_cases hc : ∃ p ∈ sk.1.vulnerabilities, p.type = v.type
  · rw [processVulnB_found env v sk hc]; exact statsLe_refl _
  · rw [processVulnB_not_found env v sk hc]
    exact ⟨Nat.le_refl _, Nat.le_refl _, Nat.le_add_right _ _, Nat.le_refl _⟩

theorem mergeA_statsLe (env : Env) (i : Nat) (sk : AppStateA × Nat) :
    StatsLe sk.1.stats
      ((env.sim i).logs.foldl (fun a l => processSimLogA env l a)
        ((env.sim i).vulnerabilities.foldl (fun a v => processVulnA env v a) sk)).1.stats :=
  statsLe_trans
    (foldl_statsLe (fun a => a.1.stats) (fun a v => processVulnA env v a)
      (fun s a => processVulnA_statsLe env a s) (env.sim i).vulnerabilities sk)
    (foldl_statsLe (fun a => a.1.stats) (fun a l => processSimLogA env l a)
      (fun s a => processSimLogA_statsLe env a s) (env.sim i).logs
      ((env.sim i).vulnerabilities.foldl (fun a v => processVulnA env v a) sk))

theorem mergeB_statsLe (env : Env) (i : Nat) (sk : AppStateB × Nat) :
    StatsLe sk.1.stats
      ((env.sim i).logs.foldl (fun a l => processSimLogB env l a)
        ((env.sim i).vulnerabilities.foldl (fun a v => processVulnB env v a) sk)).1.stats :=
  statsLe_trans
    (foldl_statsLe (fun a => a.1.stats) (fun a v => processVulnB env v a)
      (fun s a => processVulnB_statsLe env a s) (env.sim i).vulnerabilities sk)
    (foldl_statsLe (fun a => a.1.stats) (fun a l => processSimLogB env l a)
      (fun s a => processSimLogB_statsLe env a s) (env.sim i).logs
      ((env.sim i).vulnerabilities.foldl (fun a v => processVulnB env v a) sk))

theorem mergeA_statsLe_of_eq (env : Env) (i : Nat) (sk base : AppStateA × Nat)
    (hb : base.1.stats = sk.1.stats) :
    StatsLe sk.1.stats
      ((env.sim i).logs.foldl (fun a l => processSimLogA env l a)
        ((env.sim i).vulnerabilities.foldl (fun a v => processVulnA env v a) base)).1.stats := by
  rw [← hb]; exact mergeA_statsLe env i base

theorem mergeB_statsLe_of_eq (env : Env) (i : Nat) (sk base : AppStateB × Nat)
    (hb : base.1.stats = sk.1.stats) :
    StatsLe sk.1.stats
      ((env.sim i).logs.foldl (fun a l => processSimLogB env l a)
        ((env.sim i).vulnerabilities.foldl (fun a v => processVulnB env v a) base)).1.stats := by
  rw [← hb]; exact mergeB_statsLe env i base

theorem tickA_statsLe (env i sk) : StatsLe sk.1.stats (tickA env i sk).1.stats := by
  simp only [tickA]
  exact mergeA_statsLe_of_eq env i sk _ rfl

theorem tickB_statsLe (env i sk) : StatsLe sk.1.stats (tickB env i sk).1.stats := by
  simp only [tickB]
  exact mergeB_statsLe_of_eq env i sk _ rfl

theorem scanLoopA_statsLe (env cap) :
    ∀ fuel i sk, StatsLe sk.1.stats ((scanLoopA env cap fuel i sk).1).1.stats := by
  intro fuel
  induction fuel with
  | zero => intro i sk; exact statsLe_refl _
  | succ n ih =>
    intro i sk
    cases cap with
    | false => exact statsLe_refl _
    | true => exact statsLe_trans (tickA_statsLe env i sk) (ih (i + 1) (tickA env i sk))

theorem scanLoopB_statsLe (env cap) :
    ∀ fuel i sk, StatsLe sk.1.stats ((scanLoopB env cap fuel i sk).1).1.stats := by
  intro fuel
  induction fuel with
  | zero => intro i sk; exact statsLe_refl _
  | succ n ih =>
    intro i sk
    by_cases hc : cap = false ∧ 0 < i
    · rw [scanLoopB, if_pos hc]; exact statsLe_refl _
    · rw [scanLoopB, if_neg hc]
      exact statsLe_trans (tickB_statsLe env i sk) (ih (i + 1) (tickB env i sk))

/-- A property preserved by every tick is preserved by variant A's loop. -/
theorem scanLoopA_preserve (env cap) (P : AppStateA × Nat → Prop)
    (h : ∀ i sk, P sk → P (tickA env i sk)) :
    ∀ fuel i sk, P sk → P ((scanLoopA env cap fuel i sk).1) := by
  intro fuel
  induction fuel with
  | zero => intro i sk hs; exact hs
  | succ n ih =>
    intro i sk hs
    cases cap with
    | false => exact hs
    | true => exact ih (i + 1) (tickA env i sk) (h i sk hs)

/-- A property preserved by every tick is preserved by variant B's loop. -/
theorem scanLoopB_preserve (env cap) (P : AppStateB × Nat → Prop)
    (h : ∀ i sk, P sk → P (tickB env i sk)) :
    ∀ fuel i sk, P sk → P ((scanLoopB env cap fuel i sk).1) := by
  intro fuel
  induction fuel with
  | zero => intro i sk hs; exact hs
  | succ n ih =>
    intro i sk hs
    by_cases hc : cap = false ∧ 0 < i
    · rw [scanLoopB, if_pos hc]; exact hs
    · rw [scanLoopB, if_neg hc]
      exact ih (i + 1) (tickB env i sk) (h i sk hs)

/-- With the closure-captured isScanning false, variant A's loop breaks
before running any body. -/
theorem scanLoopA_cap_false (env) :
    ∀ fuel i sk, scanLoopA env false fuel i sk = (sk, 0) := by
  intro fuel i sk
  cases fuel <;> rfl

/-- With the captured flag true, variant A's loop runs all its iterations. -/
theorem scanLoopA_ticks_true (env) :
    ∀ fuel i sk, (scanLoopA env true fuel i sk).2 = fuel := by
  intro fuel
  induction fuel with
  | zero => intro i sk; rfl
  | succ n ih =>
    intro i sk
    have : (scanLoopA env true (n + 1) i sk).2
        = (scanLoopA env true n (i + 1) (tickA env i sk)).2 + 1 := rfl
    rw [this, ih]

/-- With the captured flag false, variant B's loop breaks as soon as i is
positive. -/
theorem scanLoopB_break (env) :
    ∀ fuel i sk, 0 < i → scanLoopB env false fuel i sk = (sk, 0) := by
  intro fuel i sk hi
  cases fuel with
  | zero => rfl
  | succ n => rw [scanLoopB, if_pos ⟨rfl, hi⟩]

/-- With the captured flag true, variant B's loop runs all its iterations. -/
theorem scanLoopB_ticks_true (env) :
    ∀ fuel i sk, (scanLoopB env true fuel i sk).2 = fuel := by
  intro fuel
  induction fuel with
  | zero => intro i sk; rfl
  | succ n ih =>
    intro i sk
    rw [scanLoopB, if_neg (by simp)]
    have : (let r := scanLoopB env true n (i + 1) (tickB env i sk); (r.1, r.2 + 1)).2
        = (scanLoopB env true n (i + 1) (tickB env i sk)).2 + 1 := rfl
    rw [this, ih]

/-- A property preserved by both batch-merge steps is preserved by the
batch merge of one tick. -/
theorem mergeA_preserve (env : Env) (i : Nat) (P : AppStateA × Nat → Prop)
    (hv : ∀ sk v, P sk → P (processVulnA env v sk))
    (hl : ∀ sk l, P sk → P (processSimLogA env l sk))
    (base : AppStateA × Nat) (hb : P base) :
    P ((env.sim i).logs.foldl (fun a l => processSimLogA env l a)
        ((env.sim i).vulnerabilities.foldl (fun a v => processVulnA env v a) base)) :=
  foldl_preserve _ P hl _ _ (foldl_preserve _ P hv _ _ hb)

/-- A property preserved by both batch-merge steps is preserved by the
batch merge of one tick. -/
theorem mergeB_preserve (env : Env) (i : Nat) (P : AppStateB × Nat → Prop)
    (hv : ∀ sk v, P sk → P (processVulnB env v sk))
    (hl : ∀ sk l, P sk → P (processSimLogB env l sk))
    (base : AppStateB × Nat) (hb : P base) :
    P ((env.sim i).logs.foldl (fun a l => processSimLogB env l a)
        ((env.sim i).vulnerabilities.foldl (fun a v => processVulnB env v a) base)) :=
  foldl_preserve _ P hl _ _ (foldl_preserve _ P hv _ _ hb)

theorem nodesFlat_append (l : List CrawlNode) (n : CrawlNode)
    (hl : NodesFlat l) (hn : n.parent = none ∧ n.status ≠ NodeStatus.pending) :
    NodesFlat (l ++ [n]) := by
  intro x hx
  rcases List.mem_append.mp hx with h | h
  · exact hl x h
  · rw [List.mem_singleton] at h
    subst h
    exact hn

theorem mkTickNodeA_flat (env : Env) (k i : Nat) (d : SimData) :
    (mkTickNodeA env k i d).parent = none ∧
      (mkTickNodeA env k i d).status ≠ NodeStatus.pending := by
  refine ⟨rfl, ?_⟩
  simp only [mkTickNodeA]
  split <;> simp

theorem tickA_typesDistinct (env i sk) (h : TypesDistinct sk.1.vulnerabilities) :
    TypesDistinct (tickA env i sk).1.vulnerabilities := by
  simp only [tickA]
  exact mergeA_preserve env i (fun a => TypesDistinct a.1.vulnerabilities)
    (fun s v hs => processVulnA_typesDistinct env v s hs)
    (fun s l hs => by
      show TypesDistinct (processSimLogA env l s).1.vulnerabilities
      rw [processSimLogA_vulnerabilities]; exact hs)
    _ h

theorem tickB_typesDistinct (env i sk) (h : TypesDistinct sk.1.vulnerabilities) :
    TypesDistinct (tickB env i sk).1.vulnerabilities := by
  simp only [tickB]
  exact mergeB_preserve env i (fun a => TypesDistinct a.1.vulnerabilities)
    (fun s v hs => processVulnB_typesDistinct env v s hs)
    (fun s l hs => by
      show TypesDistinct (processSimLogB env l s).1.vulnerabilities
      rw [processSimLogB_vulnerabilities]; exact hs)
    _ h

theorem tickA_countInv (env i sk) (h : VulnCountInvA sk.1) :
    VulnCountInvA (tickA env i sk).1 := by
  simp only [tickA]
  exact mergeA_preserve env i (fun a => VulnCountInvA a.1)
    (fun s v hs => processVulnA_countInv env v s hs)
    (fun s l hs => processSimLogA_countInv env l s hs)
    _ h

theorem tickB_countInv (env i sk) (h : VulnCountInvB sk.1) :
    VulnCountInvB (tickB env i sk).1 := by
  simp only [tickB]
  exact mergeB_preserve env i (fun a => VulnCountInvB a.1)
    (fun s v hs => processVulnB_countInv env v s hs)
    (fun s l hs => processSimLogB_countInv env l s hs)
    _ h

theorem tickA_nodesFlat (env i sk) (h : NodesFlat sk.1.crawlNodes) :
    NodesFlat (tickA env i sk).1.crawlNodes := by
  simp only [tickA]
  exact mergeA_preserve env i (fun a => NodesFlat a.1.crawlNodes)
    (fun s v hs => by
      show NodesFlat (processVulnA env v s).1.crawlNodes
      rw [processVulnA_crawlNodes]; exact hs)
    (fun s l hs => by
      show NodesFlat (processSimLogA env l s).1.crawlNodes
      rw [processSimLogA_crawlNodes]; exact hs)
    _ (nodesFlat_append _ _ h (mkTickNodeA_flat env _ i (env.sim i)))

/-- Past the guards, the session's vulnerability list keeps its types
pairwise distinct (it restarts from the emptied reset state). -/
theorem startScanA_typesDistinct (env tgt cap s) (h : tgt ≠ "") :
    TypesDistinct (startScanA env tgt true cap s).1.vulnerabilities := by
  unfold startScanA
  rw [if_neg h, if_neg (by decide)]
  exact scanLoopA_preserve env cap (fun a => TypesDistinct a.1.vulnerabilities)
    (fun i sk hs => tickA_typesDistinct env i sk hs) 5 0 _ List.Pairwise.nil

/-- Past the guards, the session's vulnerability list keeps its types
pairwise distinct. -/
theorem startScanB_typesDistinct (env tgt cap s) (h : tgt ≠ "") :
    TypesDistinct (startScanB env tgt true cap s).1.vulnerabilities := by
  unfold startScanB
  rw [if_neg h, if_neg (by decide)]
  exact scanLoopB_preserve env cap (fun a => TypesDistinct a.1.vulnerabilities)
    (fun i sk hs => tickB_typesDistinct env i sk hs) 4 0 _ List.Pairwise.nil

/-- Past the guards, vulnsFound tracks the vulnerability list length. -/
theorem startScanA_countInv (env tgt cap s) (h : tgt ≠ "") :
    VulnCountInvA (startScanA env tgt true cap s).1 := by
  unfold startScanA
  rw [if_neg h, if_neg (by decide)]
  exact scanLoopA_preserve env cap (fun a => VulnCountInvA a.1)
    (fun i sk hs => tickA_countInv env i sk hs) 5 0 _ rfl

/-- Past the guards, vulnsFound tracks the vulnerability list length. -/
theorem startScanB_countInv (env tgt cap s) (h : tgt ≠ "") :
    VulnCountInvB (startScanB env tgt true cap s).1 := by
  unfold startScanB
  rw [if_neg h, if_neg (by decide)]
  exact scanLoopB_preserve env cap (fun a => VulnCountInvB a.1)
    (fun i sk hs => tickB_countInv env i sk hs) 4 0 _ rfl

/-- Past the guards, every node of the crawl list is flat. -/
theorem startScanA_nodesFlat (env tgt cap s) (h : tgt ≠ "") :
    NodesFlat (startScanA env tgt true cap s).1.crawlNodes := by
  unfold startScanA
  rw [if_neg h, if_neg (by decide)]
  refine scanLoopA_preserve env cap (fun a => NodesFlat a.1.crawlNodes)
    (fun i sk hs => tickA_nodesFlat env i sk hs) 5 0 _ ?_
  intro n hn
  rw [List.mem_singleton] at hn
  subst hn
  exact ⟨rfl, by decide⟩

/-- With the captured flag false, variant B's loop with bound 4 runs
exactly its first iteration. -/
theorem scanLoopB_false_one_tick (env : Env) (sk : AppStateB × Nat) :
    (scanLoopB env false 4 0 sk).2 = 1 := by
  have h1 : scanLoopB env false 4 0 sk
      = ((scanLoopB env false 3 1 (tickB env 0 sk)).1,
         (scanLoopB env false 3 1 (tickB env 0 sk)).2 + 1) := by
    rw [scanLoopB, if_neg (by decide)]
  rw [h1, scanLoopB_break env 3 1 (tickB env 0 sk) (by decide)]

/-! The claims. -/

/-- Claim C3: when the generative-text call fails (throws),
analyzeTargetForSimulation returns the fixed fallback result: seven log
entries whose only variable part is the target URL interpolated into the
fourth message, and an empty vulnerabilities array; being a total
function of the outcome, it propagates no exception. -/
theorem analyze_fallback_on_failure :
    ∀ (parse : String → Option SimData) (t : String) (rest : List ApiOutcome),
      analyzeTargetForSimulation parse t (.throw :: rest) = (fallbackSim t, rest)
    ∧ (fallbackSim t).vulnerabilities = []
    ∧ (fallbackSim t).logs.length = 7
    ∧ (fallbackSim t).logs.map SimLog.message =
        ["Gemini Uplink Failed. Reverting to local heuristics.",
         "Connection unstable. Retrying handshake...",
         "Falling back to offline simulation database...",
         "Simulating scan for " ++ t,
         "GET /login [200 OK] - 45ms",
         "Found input[name=\x27username\x27]",
         "Testing payload: \x27 OR 1=1 --"] := by
  intro parse t rest
  exact ⟨rfl, rfl, rfl, rfl⟩

/-- Claim C8: analyzeTargetForSimulation consumes exactly one API
outcome per invocation (the returned trace is the tail), depends only on
that single outcome (no retry or reordering), and returns empty logs and
vulnerabilities when the response text is undefined or empty. -/
theorem analyze_single_request :
    ∀ (parse : String → Option SimData) (t : String) (o : ApiOutcome)
      (r r' : List ApiOutcome),
      (analyzeTargetForSimulation parse t (o :: r)).2 = r
    ∧ (analyzeTargetForSimulation parse t (o :: r)).1
        = (analyzeTargetForSimulation parse t (o :: r')).1
    ∧ (analyzeTargetForSimulation parse t (.reply none :: r)).1 = emptySim
    ∧ (analyzeTargetForSimulation parse t (.reply (some "") :: r)).1 = emptySim
    ∧ emptySim.logs = [] ∧ emptySim.vulnerabilities = [] := by
  intro parse t o r r'
  have key : ∀ (rr : List ApiOutcome),
      analyzeTargetForSimulation parse t (o :: rr)
        = ((analyzeTargetForSimulation parse t (o :: rr)).1, rr) := by
    intro rr
    cases o with
    | throw => rfl
    | reply text =>
      cases text with
      | none => rfl
      | some u =>
        simp only [analyzeTargetForSimulation]
        split
        · rfl
        · split <;> rfl
  refine ⟨?_, ?_, rfl, rfl, rfl, rfl⟩
  · rw [key r]
  · rw [key r, key r']
    cases o with
    | throw => rfl
    | reply text =>
      cases text with
      | none => rfl
      | some u =>
        simp only [analyzeTargetForSimulation]
        split
        · rfl
        · split <;> rfl

/-- Claim C10: an empty target URL never starts a scan.  In variant A
the call is a complete no-op; in variant B it appends a single ERROR log
entry and leaves the vulnerability list, the stats and isScanning
unchanged.  Neither variant runs any loop iteration. -/
theorem startScan_empty_target :
    ∀ (env : Env) (key cap : Bool) (s : AppStateA) (sB : AppStateB),
      startScanA env "" key cap s = (s, 0)
    ∧ (startScanB env "" key cap sB).1.logs
        = sB.logs ++ [mkLogEntry env 0 .ERROR "Target URL is required." .CORE]
    ∧ (mkLogEntry env 0 LogLevel.ERROR "Target URL is required." Module.CORE).level
        = LogLevel.ERROR
    ∧ (startScanB env "" key cap sB).1.vulnerabilities = sB.vulnerabilities
    ∧ (startScanB env "" key cap sB).1.stats = sB.stats
    ∧ (startScanB env "" key cap sB).1.isScanning = sB.isScanning
    ∧ (startScanB env "" key cap sB).2 = 0 := by
  intro env key cap s sB
  exact ⟨rfl, rfl, rfl, rfl, rfl, rfl, rfl⟩

/-- Claim C4: past the guards (non-empty target, API key available) the
whole prior session state is discarded: the scan result does not depend
on the previous logs, vulnerabilities, crawl nodes or stats at all, and
the session restarts from the reset state whose lists are empty and
whose four counters are zero. -/
theorem startScan_discards_prior_state :
    ∀ (env : Env) (tgt : String) (cap : Bool) (s s' : AppStateA) (sB sB' : AppStateB),
      tgt ≠ "" →
      startScanA env tgt true cap s = startScanA env tgt true cap s'
    ∧ startScanB env tgt true cap sB = startScanB env tgt true cap sB'
    ∧ resetStateA.logs = [] ∧ resetStateA.vulnerabilities = []
    ∧ resetStateA.crawlNodes = [] ∧ resetStateA.stats = zeroStats
    ∧ resetStateB.logs = [] ∧ resetStateB.vulnerabilities = [] ∧ resetStateB.stats = zeroStats
    ∧ zeroStats.pagesCrawled = 0 ∧ zeroStats.formsDetected = 0
    ∧ zeroStats.vulnsFound = 0 ∧ zeroStats.durationSeconds = 0 := by
  intro env tgt cap s s' sB sB' h
  refine ⟨?_, ?_, rfl, rfl, rfl, rfl, rfl, rfl, rfl, rfl, rfl, rfl, rfl⟩
  · simp only [startScanA, if_neg h, if_neg (show ¬((true : Bool) = false) by decide)]
  · simp only [startScanB, if_neg h, if_neg (show ¬((true : Bool) = false) by decide)]

/-- Witness for C4 at concrete inputs: two different prior states give the
same scan result. -/
theorem startScan_discards_prior_state_witness :
    startScanA envTest "https://example.com" true false initA
      = startScanA envTest "https://example.com" true false stateWithVulnA :=
  (startScan_discards_prior_state envTest "https://example.com" false initA
    stateWithVulnA initB initB (by decide)).1

/-- Claim C5 evaluation (code bug): with the closure-captured isScanning
value false — which is what every real invocation from the INITIATE
button observes, since the callback is created in a render where
isScanning is false — variant A's loop breaks at i = 0 and performs 0
ticks and variant B performs exactly 1 tick, instead of the 5 and 4 the
loop bounds intend; with the intended current-state reading (captured
value true) the counts would be 5 and 4. -/
theorem startScan_tick_counts :
    ∀ (env : Env) (s : AppStateA) (sB : AppStateB),
      (startScanA env "https://example.com" true false s).2 = 0
    ∧ (startScanB env "https://example.com" true false sB).2 = 1
    ∧ (startScanA env "https://example.com" true true s).2 = 5
    ∧ (startScanB env "https://example.com" true true sB).2 = 4 := by
  intro env s sB
  have hne : ("https://example.com" : String) ≠ "" := by decide
  have hkey : ¬((true : Bool) = false) := by decide
  refine ⟨?_, ?_, ?_, ?_⟩
  · simp only [startScanA, if_neg hne, if_neg hkey]
    rw [scanLoopA_cap_false]
  · simp only [startScanB, if_neg hne, if_neg hkey]
    rw [scanLoopB_false_one_tick]
  · simp only [startScanA, if_neg hne, if_neg hkey]
    rw [scanLoopA_ticks_true]
  · simp only [startScanB, if_neg hne, if_neg hkey]
    rw [scanLoopB_ticks_true]

/-- Claim C1: the vulnerability list is deduplicated by type.  A batch
vulnerability whose type already occurs in the list leaves the whole
state unchanged (no WARN alert, no vulnsFound increment); otherwise it
is appended with a freshly drawn id, the alert is logged and vulnsFound
is incremented.  Consequently, within one scan session the list never
holds two entries of the same type, in either App variant. -/
theorem vuln_list_dedup_by_type :
    ∀ (env : Env) (v : VulnData) (sk : AppStateA × Nat) (skB : AppStateB × Nat)
      (tgt : String) (cap : Bool) (s : AppStateA) (sB : AppStateB),
      ((∃ p ∈ sk.1.vulnerabilities, p.type = v.type) → processVulnA env v sk = sk)
    ∧ ((¬ ∃ p ∈ sk.1.vulnerabilities, p.type = v.type) →
         (processVulnA env v sk).1.vulnerabilities
            = sk.1.vulnerabilities ++ [mkVuln env (sk.2 + 1) v]
       ∧ (processVulnA env v sk).1.stats.vulnsFound = sk.1.stats.vulnsFound + 1
       ∧ (processVulnA env v sk).1.logs
            = appendCapped (mkLogEntry env sk.2 .WARN
                ("ALERT: Found " ++ v.type ++ " at " ++ v.location) .DAST) sk.1.logs)
    ∧ ((∃ p ∈ skB.1.vulnerabilities, p.type = v.type) → processVulnB env v skB = skB)
    ∧ ((¬ ∃ p ∈ skB.1.vulnerabilities, p.type = v.type) →
         (processVulnB env v skB).1.vulnerabilities
            = skB.1.vulnerabilities ++ [mkVuln env (skB.2 + 1) v]
       ∧ (processVulnB env v skB).1.stats.vulnsFound = skB.1.stats.vulnsFound + 1
       ∧ (processVulnB env v skB).1.logs
            = skB.1.logs ++ [mkLogEntry env skB.2 .WARN
                ("VULNERABILITY DETECTED: " ++ v.type) .DAST])
    ∧ (tgt ≠ "" → TypesDistinct (startScanA env tgt true cap s).1.vulnerabilities)
    ∧ (tgt ≠ "" → TypesDistinct (startScanB env tgt true cap sB).1.vulnerabilities) := by
  intro env v sk skB tgt cap s sB
  refine ⟨processVulnA_found env v sk, ?_, processVulnB_found env v skB, ?_,
    startScanA_typesDistinct env tgt cap s, startScanB_typesDistinct env tgt cap sB⟩
  · intro h
    rw [processVulnA_not_found env v sk h]
    exact ⟨rfl, rfl, rfl⟩
  · intro h
    rw [processVulnB_not_found env v skB h]
    exact ⟨rfl, rfl, rfl⟩

/-- Witness for C1: a duplicate-typed record is dropped, a fresh one is
appended, and a concrete session's list has pairwise-distinct types. -/
theorem vuln_list_dedup_by_type_witness :
    processVulnA envTest vTest (stateWithVulnA, 9) = (stateWithVulnA, 9)
  ∧ (processVulnA envTest vTest (initA, 0)).1.vulnerabilities = [mkVuln envTest 1 vTest]
  ∧ TypesDistinct (startScanA envTest "https://example.com" true false initA).1.vulnerabilities := by
  have h1 := vuln_list_dedup_by_type envTest vTest (stateWithVulnA, 9) (initB, 0)
    "https://example.com" false initA initB
  have h2 := vuln_list_dedup_by_type envTest vTest (initA, 0) (initB, 0)
    "https://example.com" false initA initB
  refine ⟨h1.1 (by decide), ?_, h1.2.2.2.2.1 (by decide)⟩
  have h3 := (h2.2.1 (by decide)).1
  simpa using h3

/-- Claim C2 counterexample: variant B's addLog applied to a log list
that already holds 50 entries produces 51 entries, so the program's log
list is not capped at 50. -/
theorem addLog_cap_counterexample :
    ¬ ((addLogB envTest .INFO "x" .CORE
        ({ logs := List.replicate 50 (mkLogEntry envTest 0 .INFO "x" .CORE),
           vulnerabilities := [], isScanning := false, stats := zeroStats }, 0)).1.logs.length
        ≤ 50) := by
  simp [addLogB]

/-- Claim C2 (amended): every addLog call appends exactly one new entry
at the end and preserves the relative order of the retained entries, in
both variants; the 50-entry cap holds in the first App variant (whose
addLog keeps only the trailing window), while the second variant's
addLog is a plain uncapped append. -/
theorem addLog_append_and_cap :
    ∀ (env : Env) (lvl : LogLevel) (msg : String) (md : Module)
      (sk : AppStateA × Nat) (skB : AppStateB × Nat),
      List.IsSuffix ((addLogA env lvl msg md sk).1.logs)
        (sk.1.logs ++ [mkLogEntry env sk.2 lvl msg md])
    ∧ (addLogA env lvl msg md sk).1.logs.length ≤ 50
    ∧ (addLogA env lvl msg md sk).1.logs.getLast? = some (mkLogEntry env sk.2 lvl msg md)
    ∧ (sk.1.logs.length ≤ 49 →
        (addLogA env lvl msg md sk).1.logs = sk.1.logs ++ [mkLogEntry env sk.2 lvl msg md])
    ∧ (addLogB env lvl msg md skB).1.logs = skB.1.logs ++ [mkLogEntry env skB.2 lvl msg md]
    ∧ (addLogB env lvl msg md skB).1.logs.getLast? = some (mkLogEntry env skB.2 lvl msg md) := by
  intro env lvl msg md sk skB
  refine ⟨?_, ?_, ?_, ?_, rfl, ?_⟩
  · exact ⟨sk.1.logs.take (sk.1.logs.length - 49), by
      show sk.1.logs.take (sk.1.logs.length - 49) ++
          (sk.1.logs.drop (sk.1.logs.length - 49) ++ [mkLogEntry env sk.2 lvl msg md])
        = sk.1.logs ++ [mkLogEntry env sk.2 lvl msg md]
      rw [← List.append_assoc, List.take_append_drop]⟩
  · show (sk.1.logs.drop (sk.1.logs.length - 49) ++ [mkLogEntry env sk.2 lvl msg md]).length ≤ 50
    rw [List.length_append, List.length_drop]
    simp
    omega
  · show (sk.1.logs.drop (sk.1.logs.length - 49) ++ [mkLogEntry env sk.2 lvl msg md]).getLast?
      = some (mkLogEntry env sk.2 lvl msg md)
    rw [List.getLast?_concat]
  · intro h
    show sk.1.logs.drop (sk.1.logs.length - 49) ++ [mkLogEntry env sk.2 lvl msg md]
      = sk.1.logs ++ [mkLogEntry env sk.2 lvl msg md]
    rw [Nat.sub_eq_zero_of_le h, List.drop_zero]
  · show (skB.1.logs ++ [mkLogEntry env skB.2 lvl msg md]).getLast?
      = some (mkLogEntry env skB.2 lvl msg md)
    rw [List.getLast?_concat]

/-- Witness for C2 (amended) at a concrete input, discharging the
below-cap hypothesis. -/
theorem addLog_append_and_cap_witness :
    (addLogA envTest .INFO "x" .CORE (initA, 0)).1.logs
      = [mkLogEntry envTest 0 .INFO "x" .CORE] := by
  have h := addLog_append_and_cap envTest .INFO "x" .CORE (initA, 0) (initB, 0)
  simpa using h.2.2.2.1 (by decide)

/-- Claim C6: during a session the four counters only grow.  Adding a
log entry leaves the stats untouched; merging a batch log record adds
exactly 1 to pagesCrawled (resp. formsDetected) precisely for CRAWLER
(resp. FORM_BOT) records; an accepted vulnerability adds exactly 1 to
vulnsFound and a rejected duplicate adds 0; the timer adds exactly 1 to
durationSeconds; and every tick and every whole loop run only ever
increases each counter. -/
theorem stats_monotone_during_session :
    ∀ (env : Env) (lvl : LogLevel) (msg : String) (md : Module) (l : SimLog) (v : VulnData)
      (cap : Bool) (fuel i : Nat) (sk : AppStateA × Nat) (skB : AppStateB × Nat),
      (addLogA env lvl msg md sk).1.stats = sk.1.stats
    ∧ (addLogB env lvl msg md skB).1.stats = skB.1.stats
    ∧ (processSimLogA env l sk).1.stats.pagesCrawled
        = sk.1.stats.pagesCrawled + (if l.module = .CRAWLER then 1 else 0)
    ∧ (processSimLogA env l sk).1.stats.formsDetected
        = sk.1.stats.formsDetected + (if l.module = .FORM_BOT then 1 else 0)
    ∧ (processSimLogA env l sk).1.stats.vulnsFound = sk.1.stats.vulnsFound
    ∧ (processSimLogA env l sk).1.stats.durationSeconds = sk.1.stats.durationSeconds
    ∧ (processVulnA env v sk).1.stats.vulnsFound
        = sk.1.stats.vulnsFound + (if ∃ p ∈ sk.1.vulnerabilities, p.type = v.type then 0 else 1)
    ∧ (durationTickA sk.1).stats.durationSeconds = sk.1.stats.durationSeconds + 1
    ∧ (durationTickB skB.1).stats.durationSeconds = skB.1.stats.durationSeconds + 1
    ∧ StatsLe sk.1.stats (processVulnA env v sk).1.stats
    ∧ StatsLe skB.1.stats (processVulnB env v skB).1.stats
    ∧ StatsLe sk.1.stats (processSimLogA env l sk).1.stats
    ∧ StatsLe skB.1.stats (processSimLogB env l skB).1.stats
    ∧ StatsLe sk.1.stats (tickA env i sk).1.stats
    ∧ StatsLe skB.1.stats (tickB env i skB).1.stats
    ∧ StatsLe sk.1.stats ((scanLoopA env cap fuel i sk).1).1.stats
    ∧ StatsLe skB.1.stats ((scanLoopB env cap fuel i skB).1).1.stats
    ∧ StatsLe sk.1.stats (durationTickA sk.1).stats := by
  intro env lvl msg md l v cap fuel i sk skB
  refine ⟨rfl, rfl, ?_, ?_, ?_, ?_, ?_, rfl, rfl,
    processVulnA_statsLe env v sk, processVulnB_statsLe env v skB,
    processSimLogA_statsLe env l sk, processSimLogB_statsLe env l skB,
    tickA_statsLe env i sk, tickB_statsLe env i skB,
    scanLoopA_statsLe env cap fuel i sk, scanLoopB_statsLe env cap fuel i skB,
    ⟨Nat.le_refl _, Nat.le_refl _, Nat.le_refl _, Nat.le_succ _⟩⟩
  · rw [processSimLogA_stats]
  · rw [processSimLogA_stats]
  · rw [processSimLogA_stats]
  · rw [processSimLogA_stats]
  · by_cases hc : ∃ p ∈ sk.1.vulnerabilities, p.type = v.type
    · rw [processVulnA_found env v sk hc, if_pos hc]
      exact (Nat.add_zero _).symm
    · rw [processVulnA_not_found env v sk hc, if_neg hc]
      rfl

/-- Claim C7: the crawl collection is a flat list.  The root node and
every per-tick node have no parent, no node is ever created pending, the
root is visited, and a tick's node is vuln exactly when that tick's
batch carried at least one vulnerability (visited otherwise); every node
of a session's final list is flat. -/
theorem crawl_nodes_flat_list :
    ∀ (env : Env) (k i : Nat) (d : SimData) (tgt : String) (cap : Bool) (s : AppStateA),
      (mkTickNodeA env k i d).parent = none
    ∧ ((mkTickNodeA env k i d).status = NodeStatus.vuln ↔ d.vulnerabilities ≠ [])
    ∧ ((mkTickNodeA env k i d).status = NodeStatus.visited ↔ d.vulnerabilities = [])
    ∧ (mkTickNodeA env k i d).status ≠ NodeStatus.pending
    ∧ rootNode.parent = none ∧ rootNode.status = NodeStatus.visited
    ∧ (tgt ≠ "" → NodesFlat (startScanA env tgt true cap s).1.crawlNodes) := by
  intro env k i d tgt cap s
  refine ⟨rfl, ?_, ?_, (mkTickNodeA_flat env k i d).2, rfl, rfl,
    startScanA_nodesFlat env tgt cap s⟩
  · simp only [mkTickNodeA]
    rcases d with ⟨ls, vs⟩
    cases vs <;> simp
  · simp only [mkTickNodeA]
    rcases d with ⟨ls, vs⟩
    cases vs <;> simp

/-- Witness for C7: the session list of a concrete run is flat. -/
theorem crawl_nodes_flat_list_witness :
    NodesFlat (startScanA envTest "https://example.com" true false initA).1.crawlNodes :=
  (crawl_nodes_flat_list envTest 0 0 emptySim "https://example.com" false initA).2.2.2.2.2.2
    (by decide)

/-- Claim C9: vulnsFound always equals the vulnerability list length.
Both are zero in the reset state, every merge step preserves the
equality (an accepted vulnerability adds one to each side, a rejected
duplicate changes neither, log merging changes neither), and the
equality holds for the final state of any session in both variants. -/
theorem vulnsFound_matches_list_length :
    ∀ (env : Env) (v : VulnData) (l : SimLog) (tgt : String) (cap : Bool) (i : Nat)
      (sk : AppStateA × Nat) (skB : AppStateB × Nat) (s : AppStateA) (sB : AppStateB),
      VulnCountInvA resetStateA
    ∧ VulnCountInvB resetStateB
    ∧ (VulnCountInvA sk.1 → VulnCountInvA (processVulnA env v sk).1)
    ∧ (VulnCountInvA sk.1 → VulnCountInvA (processSimLogA env l sk).1)
    ∧ (VulnCountInvA sk.1 → VulnCountInvA (tickA env i sk).1)
    ∧ (VulnCountInvB skB.1 → VulnCountInvB (processVulnB env v skB).1)
    ∧ (VulnCountInvB skB.1 → VulnCountInvB (processSimLogB env l skB).1)
    ∧ (VulnCountInvB skB.1 → VulnCountInvB (tickB env i skB).1)
    ∧ ((¬ ∃ p ∈ sk.1.vulnerabilities, p.type = v.type) →
        (processVulnA env v sk).1.vulnerabilities.length = sk.1.vulnerabilities.length + 1
      ∧ (processVulnA env v sk).1.stats.vulnsFound = sk.1.stats.vulnsFound + 1)
    ∧ ((∃ p ∈ sk.1.vulnerabilities, p.type = v.type) → processVulnA env v sk = sk)
    ∧ (tgt ≠ "" → VulnCountInvA (startScanA env tgt true cap s).1)
    ∧ (tgt ≠ "" → VulnCountInvB (startScanB env tgt true cap sB).1) := by
  intro env v l tgt cap i sk skB s sB
  refine ⟨rfl, rfl, processVulnA_countInv env v sk, processSimLogA_countInv env l sk,
    tickA_countInv env i sk, processVulnB_countInv env v skB,
    processSimLogB_countInv env l skB, tickB_countInv env i skB, ?_,
    processVulnA_found env v sk, startScanA_countInv env tgt cap s,
    startScanB_countInv env tgt cap sB⟩
  intro h
  rw [processVulnA_not_found env v sk h]
  constructor
  · show (sk.1.vulnerabilities ++ [mkVuln env (sk.2 + 1) v]).length
      = sk.1.vulnerabilities.length + 1
    rw [List.length_append]
    rfl
  · rfl

/-- Witness for C9: the invariant holds for a concrete session, and an
accepted vulnerability moves both sides by one. -/
theorem vulnsFound_matches_list_length_witness :
    VulnCountInvA (startScanA envTest "https://example.com" true false initA).1
  ∧ (processVulnA envTest vTest (initA, 0)).1.vulnerabilities.length = 1 := by
  have h := vulnsFound_matches_list_length envTest vTest
    { level := .INFO, message := "m", module := .CORE } "https://example.com" false 0
    (initA, 0) (initB, 0) initA initB
  refine ⟨h.2.2.2.2.2.2.2.2.2.2.1 (by decide), ?_⟩
  have h2 := (h.2.2.2.2.2.2.2.2.1 (by decide)).1
  simpa using h2

end Sentinel
